import Mathlib

/-
  Verification of the nodeetl-mysql library (src/index.js) against its
  natural-language specification.

  The model is a shallow embedding.  Backend state is a map from table
  names to table contents plus a map from file paths to file contents.
  Every command the class sends to the MySQL backend is recorded in an
  issued-command trace, and the number of currently leased pool
  connections is tracked so that the release discipline of the source can
  be checked.  The JavaScript promise flows are translated to explicit
  state passing; where the source settles a promise early but lets the
  chain keep running (a recurring defect of this code base), the model
  pins the result while still applying the remaining side effects.
-/

/-- Contents of one backend table: ordered column names plus rows. -/
structure TableData where
  headers : List String
  rows : List (List String)
deriving Repr, DecidableEq

/-- Contents of one delimited file: the raw first line (the header line)
    and the already-parsed data rows, as the backend bulk loader sees them. -/
structure FileData where
  firstline : String
  rows : List (List String)
deriving Repr, DecidableEq

/-- The SQL commands src/index.js sends to the backend, in structured form.
    Each constructor corresponds to one template literal in the source:
    showTablesLike (line 92), dropIfExists (114, 206, 269), createLike (208),
    createTable (250), renameTable (304, 306, 318), dropTable (308),
    createIndex (138), loadData (354, 400), createTableSelect (511-516),
    selectColumns (176), exportSelect (445-447). -/
inductive Cmd where
  | showTablesLike (t : String)
  | dropIfExists (t : String)
  | createLike (s b : String)
  | createTable (t : String) (cols : List String)
  | renameTable (a b : String)
  | dropTable (t : String)
  | createIndex (col t : String)
  | loadData (path t : String) (cols : List String)
  | createTableSelect (t : String) (froms : List String) (pairs : List (String × String))
  | selectColumns (t : String)
  | exportSelect (hs : List String) (t path : String)
deriving Repr, DecidableEq

/-- Errors.  The source only ever rejects with generic Error objects; each
    constructor here corresponds to one reject site (or family of sites) and
    carries the identifying data of its message.  wrap models the sites that
    re-wrap an inner error in a new Error with a longer message. -/
inductive Err where
  | missing (site : String)
  | typeErr (site : String)
  | validation (site : String)
  | conflict (table : String)
  | backendCmd (c : Cmd)
  | tableMissing (t : String)
  | stagingNoBase (t : String)
  | stagingDrop (t : String)
  | stagingCreate (t : String)
  | notMatching (t : String)
  | exportNoTable (t : String)
  | notFound (path : String)
  | wrap (site : String) (e : Err)
deriving Repr, DecidableEq

/-- Backend responses: a result set, an affected-row count, or a plain OK. -/
inductive Resp where
  | rows (rs : List (List String))
  | affected (n : Nat)
  | done
deriving Repr, DecidableEq

/-- Global state: backend tables, the filesystem, the number of pool
    connections currently leased and not yet released, and the trace of
    commands issued to the backend. -/
structure St where
  tables : String → Option TableData
  files : String → Option FileData
  leased : Nat
  issued : List Cmd

/-- Decidable equality for Except values, so that concrete runs of the model
    can be checked by decide. -/
def exceptDecEq {ε α : Type} [DecidableEq ε] [DecidableEq α] (x y : Except ε α) :
    Decidable (x = y) :=
  match x, y with
  | .ok a, .ok b =>
    if h : a = b then .isTrue (by rw [h]) else .isFalse (by intro hh; cases hh; exact h rfl)
  | .error a, .error b =>
    if h : a = b then .isTrue (by rw [h]) else .isFalse (by intro hh; cases hh; exact h rfl)
  | .ok _, .error _ => .isFalse (by intro hh; cases hh)
  | .error _, .ok _ => .isFalse (by intro hh; cases hh)

instance {ε α : Type} [DecidableEq ε] [DecidableEq α] : DecidableEq (Except ε α) :=
  exceptDecEq

/-- Extract affectedRows from a response (results.affectedRows in the source). -/
def affectedOf : Resp → Nat
  | .affected n => n
  | _ => 0

/-- Split a character list at every occurrence of a separator character. -/
def splitFields (sep : Char) : List Char → List (List Char)
  | [] => [[]]
  | c :: cs =>
    let r := splitFields sep cs
    if c = sep then [] :: r
    else
      match r with
      | [] => [[c]]
      | f :: rest => (c :: f) :: rest

/-- Split a string on a separator, as JavaScript String.split does.  The
    model covers single-character separators, the only ones this repository
    uses (comma and other one-character delimiters, dot, slash). -/
def splitOnStr (s sep : String) : List String :=
  match sep.toList with
  | [c] => (splitFields c s.toList).map (fun l => String.mk l)
  | _ => [s]

/-- Helper: first index of a column name in a header list. -/
def idxOf? : List String → String → Option Nat
  | [], _ => none
  | h :: rest, c => if h = c then some 0 else (idxOf? rest c).map (· + 1)

/-- Look up the named tables in FROM order, failing if any is absent. -/
def gatherTables (f : String → Option TableData) : List String → Option (List (String × TableData))
  | [] => some []
  | t :: rest =>
    match f t, gatherTables f rest with
    | some d, some ds => some ((t, d) :: ds)
    | _, _ => none

/-- All column names of a FROM list, in order (the columns of SELECT *). -/
def allCols (ds : List (String × TableData)) : List String :=
  (ds.map (fun p => p.2.headers)).flatten

/-- Absolute position of a qualified column reference tbl.col in the joined row. -/
def qualOffset : List (String × TableData) → String → String → Option Nat
  | [], _, _ => none
  | (n, d) :: rest, tbl, col =>
    if n = tbl then idxOf? d.headers col
    else (qualOffset rest tbl col).map (fun k => d.headers.length + k)

/-- Resolve one column reference of a WHERE pair: either qualified tbl.col or a
    bare column name that occurs exactly once across the FROM tables (MySQL
    rejects ambiguous bare names). -/
def colRef (ds : List (String × TableData)) (ref : String) : Option Nat :=
  match splitOnStr ref "." with
  | [tbl, col] => qualOffset ds tbl col
  | [col] => if (allCols ds).count col = 1 then idxOf? (allCols ds) col else none
  | _ => none

/-- Resolve every WHERE pair of a join to absolute column positions. -/
def resolveAll (ds : List (String × TableData)) : List (String × String) → Option (List (Nat × Nat))
  | [] => some []
  | (a, b) :: rest =>
    match colRef ds a, colRef ds b, resolveAll ds rest with
    | some i, some j, some ps => some ((i, j) :: ps)
    | _, _, _ => none

/-- Cartesian product of the row lists of the FROM tables, rows concatenated. -/
def cartesianRows : List (List (List String)) → List (List String)
  | [] => [[]]
  | rs :: rest => rs.flatMap (fun r => (cartesianRows rest).map (fun t => r ++ t))

/-- Backend semantics of one command.  Errors carry no data here; the caller
    turns them into Err values.  A failing command never mutates state. -/
def execCmd (c : Cmd) (st : St) : Except Unit Resp × St :=
  match c with
  | .showTablesLike t =>
    (.ok (.rows (match st.tables t with | some _ => [[t]] | none => [])), st)
  | .dropIfExists t =>
    (.ok .done, { st with tables := fun x => if x = t then none else st.tables x })
  | .createLike s b =>
    match st.tables b, st.tables s with
    | some d, none =>
      (.ok .done, { st with tables := fun x => if x = s then some ⟨d.headers, []⟩ else st.tables x })
    | _, _ => (.error (), st)
  | .createTable t cols =>
    match st.tables t with
    | some _ => (.error (), st)
    | none =>
      if cols.length = 0 then (.error (), st)
      else (.ok .done, { st with tables := fun x => if x = t then some ⟨cols, []⟩ else st.tables x })
  | .renameTable a b =>
    match st.tables a, st.tables b with
    | some d, none =>
      (.ok .done, { st with tables := fun x => if x = a then none else if x = b then some d else st.tables x })
    | _, _ => (.error (), st)
  | .dropTable t =>
    match st.tables t with
    | some _ => (.ok .done, { st with tables := fun x => if x = t then none else st.tables x })
    | none => (.error (), st)
  | .createIndex col t =>
    match st.tables t with
    | some d => if d.headers.contains col then (.ok .done, st) else (.error (), st)
    | none => (.error (), st)
  | .loadData path t cols =>
    match st.tables t, st.files path with
    | some d, some f =>
      if cols.length = 0 ∨ cols.all (fun c => d.headers.contains c) then
        (.ok (.affected f.rows.length),
         { st with tables := fun x => if x = t then some ⟨d.headers, d.rows ++ f.rows⟩ else st.tables x })
      else (.error (), st)
    | _, _ => (.error (), st)
  | .createTableSelect t froms pairs =>
    match st.tables t with
    | some _ => (.error (), st)
    | none =>
      if froms.length = 0 then (.error (), st)
      else
        match gatherTables st.tables froms with
        | none => (.error (), st)
        | some ds =>
          match resolveAll ds pairs with
          | none => (.error (), st)
          | some ps =>
            let rws := (cartesianRows (ds.map (fun p => p.2.rows))).filter
              (fun r => ps.all (fun q => r.get? q.1 = r.get? q.2))
            (.ok .done, { st with tables := fun x => if x = t then some ⟨allCols ds, rws⟩ else st.tables x })
  | .selectColumns t =>
    (.ok (.rows (match st.tables t with | some d => [d.headers] | none => [])), st)
  | .exportSelect hs t path =>
    match st.tables t with
    | none => (.error (), st)
    | some d =>
      if hs.length = 0 then (.error (), st)
      else if (st.files path).isSome then (.error (), st)
      else if hs.all (fun h => d.headers.contains h) then
        (.ok (.affected (d.rows.length + 1)),
         { st with files := fun x => if x = path then some ⟨String.intercalate "," hs, d.rows⟩ else st.files x })
      else (.error (), st)

/-- Send one command over an already-leased connection (db.query in the
    source): the command is recorded in the trace and executed. -/
def send (c : Cmd) (st : St) : Except Unit Resp × St :=
  execCmd c { st with issued := st.issued ++ [c] }

/-- The query method (src/index.js lines 68-82).  It leases a connection,
    sends the command, and releases the connection ONLY on the success path:
    on a backend error the source rejects without calling db.release. -/
def query (c : Cmd) (st : St) : Except Err Resp × St :=
  let st1 : St := { st with leased := st.leased + 1 }
  match send c st1 with
  | (.error _, st2) => (.error (.backendCmd c), st2)
  | (.ok r, st2) => (.ok r, { st2 with leased := st2.leased - 1 })

/-- tableExists (lines 89-100): SHOW TABLES LIKE, resolve when the result
    set is non-empty, reject otherwise. -/
def tableExists (t : String) (st : St) : Except Err Unit × St :=
  match query (.showTablesLike t) st with
  | (.ok (.rows rs), st1) =>
    if rs.length ≠ 0 then (.ok (), st1) else (.error (.tableMissing t), st1)
  | (.ok _, st1) => (.error (.tableMissing t), st1)
  | (.error e, st1) => (.error e, st1)

/-- Run DROP TABLE IF EXISTS for each name, keeping the first error (the
    async.each loop of dropTable, sequentialised). -/
def dropTableGo : List String → St → Option Err → Option Err × St
  | [], st, firstErr => (firstErr, st)
  | t :: rest, st, firstErr =>
    match query (.dropIfExists t) st with
    | (.ok _, st1) => dropTableGo rest st1 firstErr
    | (.error e, st1) =>
      dropTableGo rest st1 (match firstErr with | some e0 => some e0 | none => some e)

/-- dropTable (lines 108-123): rejects on an empty table list, otherwise
    drops each named table with IF EXISTS semantics. -/
def dropTable (ts : List String) (st : St) : Except Err Unit × St :=
  if ts.length = 0 then (.error (.missing "dropTable table"), st)
  else
    match dropTableGo ts st none with
    | (some e, st1) => (.error e, st1)
    | (none, st1) => (.ok (), st1)

/-- Run CREATE INDEX for each field, keeping the first error (the async.each
    loop of addIndex, sequentialised). -/
def addIndexGo (table : String) : List String → St → Option Err → Option Err × St
  | [], st, firstErr => (firstErr, st)
  | i :: rest, st, firstErr =>
    match query (.createIndex i table) st with
    | (.ok _, st1) => addIndexGo table rest st1 firstErr
    | (.error e, st1) =>
      addIndexGo table rest st1 (match firstErr with | some e0 => some e0 | none => some e)

/-- addIndex (lines 130-147).  The missing-index guard of the source only
    fires for falsy JavaScript values; every call site passes an array, so
    the model takes the field list directly. -/
def addIndex (table : String) (idx : List String) (st : St) : Except Err Unit × St :=
  if table = "" then (.error (.missing "addIndex table"), st)
  else
    match addIndexGo table idx st none with
    | (some e, st1) => (.error e, st1)
    | (none, st1) => (.ok (), st1)

/-- getFileHeaders (lines 156-166): read the first line of the file and
    split it on the delimiter.  Pure read, no backend interaction. -/
def getFileHeaders (filepath delimiter : String) (st : St) : Except Err (List String) :=
  if filepath = "" then .error (.missing "getFileHeaders filepath")
  else
    match st.files filepath with
    | some f => .ok (splitOnStr f.firstline delimiter)
    | none => .error (.notFound filepath)

/-- getTableHeaders (lines 173-185): query the information schema for the
    column list.  For an absent table GROUP_CONCAT yields NULL and the
    split call of the source throws, modelled as a type error. -/
def getTableHeaders (t : String) (st : St) : Except Err (List String) × St :=
  match query (.selectColumns t) st with
  | (.error e, st1) => (.error e, st1)
  | (.ok (.rows (hs :: _)), st1) => (.ok hs, st1)
  | (.ok _, st1) => (.error (.typeErr "getTableHeaders split of null"), st1)

/-- createStagingTable (lines 196-221): require the base table, lease a
    dedicated connection, drop any stale staging table, create the staging
    table LIKE the base.  The source never releases the leased connection,
    on any path; the model reflects that. -/
def createStagingTable (table : String) (st : St) : Except Err String × St :=
  if table = "" then (.error (.missing "createStagingTable table"), st)
  else
    match tableExists table st with
    | (.error _, st1) => (.error (.stagingNoBase table), st1)
    | (.ok _, st1) =>
      let st2 : St := { st1 with leased := st1.leased + 1 }
      match send (.dropIfExists (table ++ "_staging")) st2 with
      | (.error _, st3) => (.error (.stagingDrop table), st3)
      | (.ok _, st3) =>
        match send (.createLike (table ++ "_staging") table) st3 with
        | (.error _, st4) => (.error (.stagingCreate table), st4)
        | (.ok _, st4) => (.ok (table ++ "_staging"), st4)

/-- arrayContainsArray (lines 42-46): true when the first list contains
    every element of the second. -/
def arrayContainsArray (superset subset : List String) : Bool :=
  subset.all (fun v => superset.contains v)

/-- Model of lodash camelCase restricted to the inputs this repository
    feeds it: words separated by non-alphanumeric characters are lowercased
    and joined, every word after the first capitalised. -/
def wordsAux : List Char → List Char → List (List Char)
  | [], acc => if acc.isEmpty then [] else [acc.reverse]
  | c :: cs, acc =>
    if c.isAlphanum then wordsAux cs (c :: acc)
    else if acc.isEmpty then wordsAux cs []
    else acc.reverse :: wordsAux cs []

def capitalize : List Char → List Char
  | [] => []
  | c :: cs => c.toUpper :: cs

def camelCase (s : String) : String :=
  match wordsAux s.toList [] with
  | [] => ""
  | w :: ws =>
    String.mk ((w.map Char.toLower) ++ (ws.map (fun u => capitalize (u.map Char.toLower))).flatten)

/-- The value of the headers argument of createNewTable as a JavaScript
    caller can supply it: undefined, a (non-array) string, or an array. -/
inductive JsHeaders where
  | undef
  | str (s : String)
  | arr (l : List String)
deriving Repr, DecidableEq

/-- The create closure of createNewTable (lines 248-262): CREATE TABLE with
    one wide VARCHAR column per name, then the optional index; any failure
    is wrapped in the creating-new-table error of the closure. -/
def createNTcreate (table : String) (cols : List String) (index : Option (List String)) (st : St) :
    Except Err String × St :=
  match query (.createTable table cols) st with
  | (.error e, st1) => (.error (.wrap "create" e), st1)
  | (.ok _, st1) =>
    match index with
    | none => (.ok table, st1)
    | some idx =>
      match addIndex table idx st1 with
      | (.error e, st2) => (.error (.wrap "create" e), st2)
      | (.ok _, st2) => (.ok table, st2)

/-- The tableExists-then-drop-or-create flow of createNewTable
    (lines 264-282), with the effective (possibly prefixed) index already
    computed.  Any rejection is wrapped once more by the outer catch. -/
def createNewTableGo (table : String) (hs : List String) (index : Option (List String))
    (prependHeaders overwrite : Bool) (st : St) : Except Err String × St :=
  let cols := hs.map (fun h => if prependHeaders then table ++ "_" ++ camelCase h else h)
  match tableExists table st with
  | (.ok _, st1) =>
    if overwrite = false then (.error (.wrap "createNewTable" (.conflict table)), st1)
    else
      match query (.dropIfExists table) st1 with
      | (.error e, st2) => (.error (.wrap "createNewTable" e), st2)
      | (.ok _, st2) =>
        match createNTcreate table cols index st2 with
        | (.error e, st3) => (.error (.wrap "createNewTable" e), st3)
        | (.ok v, st3) => (.ok v, st3)
  | (.error _, st1) =>
    match createNTcreate table cols index st1 with
    | (.error e, st2) => (.error (.wrap "createNewTable" e), st2)
    | (.ok v, st2) => (.ok v, st2)

/-- createNewTable (lines 232-284).  The validation mirrors the source
    bugs faithfully: the headers guard (line 237) joins its three tests
    with a conjunction, so an empty ARRAY passes it (only a falsy value
    can satisfy all three tests, and an undefined one throws first); the
    index guard (line 238) calls arrayContainsArray with the index list as
    the superset, so it rejects exactly when every header appears in the
    index list instead of the other way round. -/
def createNewTable (table : String) (headers : JsHeaders) (index : Option (List String))
    (prependHeaders overwrite : Bool) (st : St) : Except Err String × St :=
  if table = "" then (.error (.missing "createNewTable table"), st)
  else
    match headers with
    | .undef => (.error (.typeErr "cannot read length of undefined"), st)
    | .str s =>
      if s = "" then (.error (.validation "createNewTable headers"), st)
      else (.error (.typeErr "headers is not an array"), st)
    | .arr hs =>
      match index with
      | some idx =>
        if arrayContainsArray idx hs then (.error (.validation "createNewTable index"), st)
        else
          createNewTableGo table hs
            (some (if prependHeaders then idx.map (fun i => table ++ "_" ++ camelCase i) else idx))
            prependHeaders overwrite st
      | none => createNewTableGo table hs none prependHeaders overwrite st

/-- swapTables (lines 295-325).  When the base table exists: lease a
    dedicated connection (never released by the source) and run the
    three-step rename-rename-drop sequence.  When the existence check
    rejects: a single rename of the staging table to the base name through
    the pooled query method. -/
def swapTables (table : String) (st : St) : Except Err Unit × St :=
  match tableExists table st with
  | (.ok _, st1) =>
    let st2 : St := { st1 with leased := st1.leased + 1 }
    match send (.renameTable table (table ++ "_drop")) st2 with
    | (.error _, st3) => (.error (.backendCmd (.renameTable table (table ++ "_drop"))), st3)
    | (.ok _, st3) =>
      match send (.renameTable (table ++ "_staging") table) st3 with
      | (.error _, st4) => (.error (.backendCmd (.renameTable (table ++ "_staging") table)), st4)
      | (.ok _, st4) =>
        match send (.dropTable (table ++ "_drop")) st4 with
        | (.error _, st5) => (.error (.backendCmd (.dropTable (table ++ "_drop"))), st5)
        | (.ok _, st5) => (.ok (), st5)
  | (.error _, st1) =>
    match query (.renameTable (table ++ "_staging") table) st1 with
    | (.error e, st2) => (.error e, st2)
    | (.ok _, st2) => (.ok (), st2)

/-- Stem of a file path as path.parse(filepath).name computes it for
    ordinary names: the last path segment without its extension. -/
def fileStem (p : String) : String :=
  let base := (splitOnStr p "/").getLastD ""
  match splitOnStr base "." with
  | [] => base
  | [b] => b
  | parts => String.intercalate "." parts.dropLast

/-- importFileToTable (lines 340-369).  When the existence check rejects,
    the source settles the promise with the no-matching-table error but
    the handler does not stop the chain: the bulk load into the staging
    table and, if that load succeeds, the table swap still execute.  The
    model pins the result and applies those side effects. -/
def importFileToTable (filepath table0 : String) (headers : List String) (st : St) :
    Except Err Nat × St :=
  if filepath = "" then (.error (.missing "importFileToTable filepath"), st)
  else
    let table := if table0 = "" then fileStem filepath else table0
    match tableExists table st with
    | (.ok _, st1) =>
      match createStagingTable table st1 with
      | (.error e, st2) => (.error e, st2)
      | (.ok _, st2) =>
        match query (.loadData filepath (table ++ "_staging") headers) st2 with
        | (.error e, st3) => (.error e, st3)
        | (.ok r, st3) =>
          match swapTables table st3 with
          | (.error e, st4) => (.error e, st4)
          | (.ok _, st4) => (.ok (affectedOf r), st4)
    | (.error _, st1) =>
      match query (.loadData filepath (table ++ "_staging") headers) st1 with
      | (.error _, st2) => (.error (.notMatching table), st2)
      | (.ok _, st2) => (.error (.notMatching table), (swapTables table st2).2)

/-- importFileAndCreateTable (lines 382-409): require the file, derive the
    headers from the file when none are given, create the table fresh, bulk
    load directly into it.  The LOAD statement uses the ORIGINAL headers
    argument (an empty list renders as an empty column list, meaning all
    columns), not the derived file headers. -/
def importFileAndCreateTable (filepath table0 : String) (overwrite : Bool)
    (index : Option (List String)) (headers : List String) (prependHeaders : Bool)
    (delimiter : String) (st : St) : Except Err Nat × St :=
  if filepath = "" then (.error (.missing "importFileAndCreateTable filepath"), st)
  else if (st.files filepath).isNone then (.error (.notFound filepath), st)
  else
    let table := if table0 = "" then fileStem filepath else table0
    match (if headers.length ≠ 0 then Except.ok headers else getFileHeaders filepath delimiter st) with
    | .error e => (.error e, st)
    | .ok hs =>
      match createNewTable table (.arr hs) index prependHeaders overwrite st with
      | (.error e, st1) => (.error e, st1)
      | (.ok _, st1) =>
        match query (.loadData filepath table headers) st1 with
        | (.error e, st2) => (.error e, st2)
        | (.ok r, st2) => (.ok (affectedOf r), st2)

/-- exportFileFromTable (lines 422-455).  On the exists path the stale
    output file is unlinked with the error ignored, the header list is
    read from the table when none is given, and the export query runs.
    When the existence check rejects, the source settles the promise with
    the export-no-table error but again does not stop the chain; the
    remaining steps run (and fail against the missing table) without the
    unlink. -/
def exportFileFromTable (filepath table0 : String) (headers : List String) (st : St) :
    Except Err Nat × St :=
  if filepath = "" then (.error (.missing "exportFileFromTable filepath"), st)
  else
    let table := if table0 = "" then fileStem filepath else table0
    match tableExists table st with
    | (.ok _, st1) =>
      let st2 : St := { st1 with files := fun x => if x = filepath then none else st1.files x }
      match (if headers.length ≠ 0 then (Except.ok headers, st2) else getTableHeaders table st2) with
      | (.error e, st3) => (.error e, st3)
      | (.ok hs, st3) =>
        match query (.exportSelect hs table filepath) st3 with
        | (.error e, st4) => (.error e, st4)
        | (.ok r, st4) => (.ok (affectedOf r), st4)
    | (.error _, st1) =>
      match (if headers.length ≠ 0 then (Except.ok headers, st1) else getTableHeaders table st1) with
      | (.error _, st2) => (.error (.exportNoTable table), st2)
      | (.ok hs, st2) => (.error (.exportNoTable table), (query (.exportSelect hs table filepath) st2).2)

/-- One input file descriptor for mergeFiles.  An empty string encodes a
    missing (falsy) field. -/
structure FileDesc where
  filepath : String
  table : String
  headers : List String
  delimiter : String
  index : String
deriving Repr, DecidableEq

/-- Defaults the validation loop of mergeFiles fills in on each descriptor. -/
def normFile (f : FileDesc) : FileDesc :=
  { f with delimiter := if f.delimiter = "" then "," else f.delimiter }

/-- Result of the validation loop of mergeFiles (lines 477-486). -/
structure ScanRes where
  firstErr : Option Err
  aborted : Bool
  tables : List String
  normed : List FileDesc

/-- The validation loop.  A missing filepath or index settles the promise
    (first error wins) but the loop and the later pipeline still run; a
    missing table name makes the source call path.parse on the descriptor
    object, which throws synchronously and aborts everything. -/
def scanFiles : List FileDesc → ScanRes
  | [] => ⟨none, false, [], []⟩
  | f :: rest =>
    if f.filepath = "" then
      let r := scanFiles rest
      ⟨some (.missing "mergeFiles file filepath"), r.aborted, r.tables, normFile f :: r.normed⟩
    else if f.index = "" then
      let r := scanFiles rest
      ⟨some (.missing "mergeFiles file index"), r.aborted, r.tables, normFile f :: r.normed⟩
    else if f.table = "" then
      ⟨some (.typeErr "path.parse of object"), true, [], []⟩
    else
      let r := scanFiles rest
      ⟨r.firstErr, r.aborted, f.table :: r.tables, normFile f :: r.normed⟩

/-- The import phase (lines 490-503): every file is imported into its own
    freshly created table with prefixed column names; the phase keeps going
    past a failure and reports the first error. -/
def importAll : List FileDesc → St → Option Err × St
  | [], st => (none, st)
  | f :: rest, st =>
    match importFileAndCreateTable f.filepath f.table false
        (if f.index = "" then none else some [f.index]) f.headers true f.delimiter st with
    | (.error e, st1) => (some e, (importAll rest st1).2)
    | (.ok _, st1) => importAll rest st1

/-- The join phase (lines 506-526): CREATE TABLE with a randomized-suffix
    name selecting from all per-file tables, the WHERE clause taken from
    the merge mapping argument. -/
def joinIntoTable (suffix : String) (tables : List String) (merge : List (String × String))
    (st : St) : Except Err Resp × St :=
  query (.createTableSelect ("merge_" ++ suffix) tables merge) st

/-- mergeFiles (lines 464-552).  The suffix parameter stands for the value
    of the random suffix the source draws for the merge table name.  The
    cleanup phase is reached only when import, join and export have all
    succeeded, because the phases are chained with then. -/
def mergeFiles (files : List FileDesc) (merge : List (String × String))
    (output suffix : String) (st : St) : Except Err Nat × St :=
  if files.length = 0 then (.error (.missing "mergeFiles files"), st)
  else if output = "" then (.error (.missing "mergeFiles output"), st)
  else
    let scan := scanFiles files
    if scan.aborted then
      (.error (match scan.firstErr with | some e => e | none => .typeErr "unreachable"), st)
    else
      let settle : Except Err Nat → Except Err Nat := fun r =>
        match scan.firstErr with | some e => .error e | none => r
      match importAll scan.normed st with
      | (some e, st1) => (settle (.error e), st1)
      | (none, st1) =>
        match joinIntoTable suffix scan.tables merge st1 with
        | (.error e, st2) => (settle (.error e), st2)
        | (.ok _, st2) =>
          match exportFileFromTable output ("merge_" ++ suffix) [] st2 with
          | (.error e, st3) => (settle (.error e), st3)
          | (.ok n, st3) =>
            match dropTable (("merge_" ++ suffix) :: scan.tables) st3 with
            | (.error e, st4) => (settle (.error e), st4)
            | (.ok _, st4) => (settle (.ok n), st4)

/-- The join statement string exactly as joinIntoTable builds it
    (lines 509-516): base CREATE TABLE SELECT text, then for each merge
    pair the WHERE or AND keyword and the equality, appended in a loop
    over the indexed pairs. -/
def mergeJoinStatement (suffix : String) (tables : List String)
    (merges : List (String × String)) : String :=
  merges.enum.foldl
    (fun join m =>
      join ++ (if m.1 = 0 then " WHERE" else " AND") ++ " " ++ m.2.1 ++ " = " ++ m.2.2)
    ("CREATE TABLE merge_" ++ suffix ++ " SELECT * FROM " ++ String.intercalate ", " tables)

/-- Modelled from the spec: the prefixed join column of a file descriptor,
    table name joined to the normalised index name. -/
def specJoinColumn (f : FileDesc) : String :=
  f.table ++ "_" ++ camelCase f.index

/-- Modelled from the spec: the join statement section 4.6 describes, whose
    WHERE clause chains equality predicates between each later file's
    prefixed join column and the first file's. -/
def mergeJoinStatementSpec (suffix : String) (files : List FileDesc) : String :=
  "CREATE TABLE merge_" ++ suffix ++ " SELECT * FROM " ++
    String.intercalate ", " (files.map (fun f => f.table)) ++
    (match files with
     | [] => ""
     | f1 :: rest =>
       match rest with
       | [] => ""
       | _ =>
         " WHERE " ++
           String.intercalate " AND " (rest.map (fun f => specJoinColumn f ++ " = " ++ specJoinColumn f1)))

/-- Rendering of the tail of a WHERE clause: one AND equality per pair. -/
def andClause : List (String × String) → String
  | [] => ""
  | m :: ms => " AND " ++ m.1 ++ " = " ++ m.2 ++ andClause ms

/-- Rendering of a whole WHERE clause from merge pairs. -/
def whereClause : List (String × String) → String
  | [] => ""
  | m :: ms => " WHERE " ++ m.1 ++ " = " ++ m.2 ++ andClause ms

/-! Helper lemmas. -/

lemma append_ne_of_length (t : String) (s1 s2 : String) (h : s1.length ≠ s2.length) :
    t ++ s1 ≠ t ++ s2 := by
  intro hh
  have := congrArg String.length hh
  simp [String.length_append] at this
  omega

lemma append_ne_self (t s : String) (h : s.length ≠ 0) : t ++ s ≠ t := by
  intro hh
  have := congrArg String.length hh
  simp [String.length_append] at this
  omega

/-- A failing join command does not change the table namespace. -/
lemma joinIntoTable_error_tables (suffix : String) (ts : List String)
    (merge : List (String × String)) (st : St)
    (h : ((joinIntoTable suffix ts merge st).1).isOk = false) :
    (joinIntoTable suffix ts merge st).2.tables = st.tables := by
  unfold joinIntoTable query send
  cases hts : st.tables ("merge_" ++ suffix) with
  | some d => simp [execCmd, hts]
  | none =>
    by_cases hf : ts = []
    · simp [execCmd, hts, hf]
    · cases hg : gatherTables st.tables ts with
      | none => simp [execCmd, hts, hf, hg]
      | some ds =>
        cases hr : resolveAll ds merge with
        | none => simp [execCmd, hts, hf, hg, hr]
        | some ps =>
          exfalso
          unfold joinIntoTable query send at h
          simp [execCmd, hts, hf, hg, hr, Except.isOk, Except.toBool] at h

/-- dropTableGo never fails beyond the error it is handed, and afterwards
    every name in the list maps to no table. -/
lemma dropTableGo_fst (ts : List String) (st : St) (e : Option Err) :
    (dropTableGo ts st e).1 = e := by
  induction ts generalizing st with
  | nil => rfl
  | cons t rest ih => simp [dropTableGo, query, send, execCmd, ih]

lemma dropTableGo_tables_preserved (ts : List String) (st : St) (e : Option Err) (x : String)
    (hx : x ∉ ts) :
    (dropTableGo ts st e).2.tables x = st.tables x := by
  induction ts generalizing st e with
  | nil => rfl
  | cons t rest ih =>
    have hxt : x ≠ t := fun h => hx (h ▸ List.mem_cons_self t rest)
    have hxr : x ∉ rest := fun h => hx (List.mem_cons_of_mem t h)
    simp only [dropTableGo, query, send, execCmd]
    rw [ih _ _ hxr]
    simp [hxt]

lemma dropTableGo_tables_mem (ts : List String) (st : St) (e : Option Err) (x : String)
    (hx : x ∈ ts) :
    (dropTableGo ts st e).2.tables x = none := by
  induction ts generalizing st e with
  | nil => cases hx
  | cons t rest ih =>
    simp only [dropTableGo, query, send, execCmd]
    by_cases hxr : x ∈ rest
    · exact ih _ _ hxr
    · have hxt : x = t := by
        rcases List.mem_cons.mp hx with h | h
        · exact h
        · exact absurd h hxr
      rw [dropTableGo_tables_preserved rest _ _ x hxr]
      simp [hxt]

/-! Concrete states used by the claim checks. -/

/-- Empty backend: no tables, no files, no leased connections. -/
def stEmpty : St := { tables := fun _ => none, files := fun _ => none, leased := 0, issued := [] }

/-- One table named test. -/
def stOneTable : St :=
  { stEmpty with tables := fun x => if x = "test" then some ⟨["a"], []⟩ else none }

/-- Table test plus its staging copy. -/
def stWithStaging : St :=
  { stEmpty with
    tables := fun x =>
      if x = "test" then some ⟨["a"], [["1"]]⟩
      else if x = "test_staging" then some ⟨["b"], [["2"]]⟩
      else none }

/-- Staging table t_staging exists, base table t does not; the import file
    is present on disk. -/
def stStagingOnly : St :=
  { stEmpty with
    tables := fun x => if x = "t_staging" then some ⟨["email"], []⟩ else none,
    files := fun x => if x = "f.csv" then some ⟨"email", [["x@y.com"]]⟩ else none }

/-- C1.  The spec requires every operation that acquires a pool connection
    to release it on every exit path.  The code does not: the query method
    releases only on success (a backend error rejects without release), and
    createStagingTable and swapTables never release the connection they
    acquire, even on success.  Each run below starts with zero leased
    connections and ends with one still leased. -/
theorem connection_release_bug :
    (((query (.dropTable "missing") stEmpty).1).isOk = false ∧
      (query (.dropTable "missing") stEmpty).2.leased = 1) ∧
    ((createStagingTable "test" stOneTable).1 = .ok "test_staging" ∧
      (createStagingTable "test" stOneTable).2.leased = 1) ∧
    ((swapTables "test" stWithStaging).1 = .ok () ∧
      (swapTables "test" stWithStaging).2.leased = 1) := by decide

/-- C2.  The index-in-headers validation of createNewTable is inverted: the
    source passes the index list as the superset to arrayContainsArray.
    With headers a, b and index c the call is NOT rejected by validation: it
    issues CREATE TABLE (DDL) and only then fails on the CREATE INDEX for
    the nonexistent column.  Conversely, with headers a and index a, a
    member of the headers, the validation DOES reject, before any command. -/
theorem createNewTable_index_validation_bug :
    ((createNewTable "T" (.arr ["a", "b"]) (some ["c"]) false false stEmpty).1 =
        .error (.wrap "createNewTable" (.wrap "create" (.backendCmd (.createIndex "c" "T")))) ∧
      ((createNewTable "T" (.arr ["a", "b"]) (some ["c"]) false false stEmpty).2.issued.contains
        (.createTable "T" ["a", "b"]) = true)) ∧
    ((createNewTable "T" (.arr ["a"]) (some ["a"]) false false stEmpty).1 =
        .error (.validation "createNewTable index") ∧
      (createNewTable "T" (.arr ["a"]) (some ["a"]) false false stEmpty).2.issued = []) := by decide

/-- C3.  The headers guard of createNewTable joins its three tests with a
    conjunction instead of a disjunction, so an empty headers ARRAY passes
    validation: the call issues CREATE TABLE T with an empty column list
    (DDL reaching the backend, which rejects it as a syntax error) instead
    of failing the validation with no DDL.  An undefined headers value does
    fail early, but with a thrown type error, not the validation error. -/
theorem createNewTable_empty_headers_bug :
    ((createNewTable "T" (.arr []) none false false stEmpty).1 =
        .error (.wrap "createNewTable" (.wrap "create" (.backendCmd (.createTable "T" [])))) ∧
      ((createNewTable "T" (.arr []) none false false stEmpty).2.issued.contains
        (.createTable "T" []) = true)) ∧
    (createNewTable "T" .undef none false false stEmpty).1 =
      .error (.typeErr "cannot read length of undefined") := by decide

/-- C6.  importFileToTable on an absent target table does reject with the
    no-matching-table error, but the rejection handler does not stop the
    promise chain: when a staging table for the target name happens to
    exist, the bulk load into it and the subsequent swap still run, and the
    swap's fallback rename CREATES the target table.  Starting from a state
    with t_staging but no t, the call reports the not-found failure yet
    leaves a table named t holding the loaded data. -/
theorem importFileToTable_creates_table_bug :
    stStagingOnly.tables "t" = none ∧
    (importFileToTable "f.csv" "t" [] stStagingOnly).1 = .error (.notMatching "t") ∧
    (importFileToTable "f.csv" "t" [] stStagingOnly).2.tables "t" =
      some ⟨["email"], [["x@y.com"]]⟩ := by decide

/-- C4.  When both the base table and its staging copy exist, a successful
    swapTables performs exactly the three-step sequence (rename base to
    base_drop, rename staging to base, drop base_drop, after the existence
    check) and afterwards the base name holds the staging table's schema
    and data while no table named base_staging or base_drop remains. -/
theorem swapTables_three_step (st : St) (t : String) (dt ds : TableData)
    (hb : st.tables t = some dt) (hstg : st.tables (t ++ "_staging") = some ds)
    (hok : ((swapTables t st).1).isOk = true) :
    (swapTables t st).2.tables t = some ds ∧
    (swapTables t st).2.tables (t ++ "_staging") = none ∧
    (swapTables t st).2.tables (t ++ "_drop") = none ∧
    (swapTables t st).2.issued =
      st.issued ++ [.showTablesLike t, .renameTable t (t ++ "_drop"),
        .renameTable (t ++ "_staging") t, .dropTable (t ++ "_drop")] := by
  have h1 : t ++ "_staging" ≠ t := append_ne_self t "_staging" (by decide)
  have h2 : t ++ "_drop" ≠ t := append_ne_self t "_drop" (by decide)
  have h3 : t ++ "_staging" ≠ t ++ "_drop" := append_ne_of_length t "_staging" "_drop" (by decide)
  have h4 : t ≠ t ++ "_drop" := fun h => h2 h.symm
  have h5 : t ≠ t ++ "_staging" := fun h => h1 h.symm
  have h6 : t ++ "_drop" ≠ t ++ "_staging" := fun h => h3 h.symm
  cases hd : st.tables (t ++ "_drop") with
  | some dd =>
    exfalso
    simp [swapTables, tableExists, query, send, execCmd, hb, hstg, hd, h1, h2, h3, h4, h5, h6,
      Except.isOk, Except.toBool] at hok
  | none =>
    simp [swapTables, tableExists, query, send, execCmd, hb, hstg, hd, h1, h2, h3, h4, h5, h6]

/-- Witness for C4, on a concrete state holding test and test_staging. -/
theorem swapTables_three_step_witness :
    (swapTables "test" stWithStaging).2.tables "test" = some ⟨["b"], [["2"]]⟩ ∧
    (swapTables "test" stWithStaging).2.tables "test_staging" = none ∧
    (swapTables "test" stWithStaging).2.tables "test_drop" = none ∧
    (swapTables "test" stWithStaging).2.issued =
      stWithStaging.issued ++ [.showTablesLike "test", .renameTable "test" "test_drop",
        .renameTable "test_staging" "test", .dropTable "test_drop"] :=
  swapTables_three_step stWithStaging "test" ⟨["a"], [["1"]]⟩ ⟨["b"], [["2"]]⟩
    (by decide) (by decide) (by decide)

/-- C5.  When the base table does not exist, swapTables falls back to the
    single rename: if the staging table exists the call succeeds, issuing
    exactly the existence check and the one rename, and afterwards the base
    name holds the staging data; if the staging table does not exist either,
    the call fails. -/
theorem swapTables_fallback (st : St) (t : String) (hb : st.tables t = none) :
    (∀ ds : TableData, st.tables (t ++ "_staging") = some ds →
      (swapTables t st).1 = .ok () ∧
      (swapTables t st).2.tables t = some ds ∧
      (swapTables t st).2.tables (t ++ "_staging") = none ∧
      (swapTables t st).2.issued =
        st.issued ++ [.showTablesLike t, .renameTable (t ++ "_staging") t]) ∧
    (st.tables (t ++ "_staging") = none →
      (swapTables t st).1 = .error (.backendCmd (.renameTable (t ++ "_staging") t))) := by
  have h1 : t ++ "_staging" ≠ t := append_ne_self t "_staging" (by decide)
  have h5 : t ≠ t ++ "_staging" := fun h => h1 h.symm
  constructor
  · intro ds hstg
    simp [swapTables, tableExists, query, send, execCmd, hb, hstg, h1, h5]
  · intro hstg
    simp [swapTables, tableExists, query, send, execCmd, hb, hstg, h1, h5]

/-- Witness for C5: the success half on a state with only t_staging, the
    failure half on the empty state. -/
theorem swapTables_fallback_witness :
    ((swapTables "t" stStagingOnly).1 = .ok () ∧
      (swapTables "t" stStagingOnly).2.tables "t" = some ⟨["email"], []⟩ ∧
      (swapTables "t" stStagingOnly).2.tables "t_staging" = none ∧
      (swapTables "t" stStagingOnly).2.issued =
        stStagingOnly.issued ++ [.showTablesLike "t", .renameTable "t_staging" "t"]) ∧
    (swapTables "t" stEmpty).1 = .error (.backendCmd (.renameTable "t_staging" "t")) :=
  ⟨(swapTables_fallback stStagingOnly "t" (by decide)).1 ⟨["email"], []⟩ (by decide),
   (swapTables_fallback stEmpty "t" (by decide)).2 (by decide)⟩

/-- C7.  Conflict policy of createNewTable: starting from a state without
    table T, the first create succeeds and installs the first header list;
    repeating it without overwrite fails with the already-exists conflict
    error (wrapped by the outer catch) and leaves the table namespace
    untouched; repeating it with overwrite set first drops the old table
    (visible in the issued trace: existence check, DROP IF EXISTS, CREATE)
    and leaves a table with exactly the second call's headers. -/
theorem createNewTable_conflict_policy (st : St) (T : String) (H1 H2 : List String)
    (hT : T ≠ "") (h1 : H1 ≠ []) (h2 : H2 ≠ []) (h0 : st.tables T = none) :
    (createNewTable T (.arr H1) none false false st).1 = .ok T ∧
    (createNewTable T (.arr H1) none false false st).2.tables T = some ⟨H1, []⟩ ∧
    ((createNewTable T (.arr H2) none false false
        (createNewTable T (.arr H1) none false false st).2).1 =
      .error (.wrap "createNewTable" (.conflict T)) ∧
     (createNewTable T (.arr H2) none false false
        (createNewTable T (.arr H1) none false false st).2).2.tables =
      (createNewTable T (.arr H1) none false false st).2.tables) ∧
    ((createNewTable T (.arr H2) none false true
        (createNewTable T (.arr H1) none false false st).2).1 = .ok T ∧
     (createNewTable T (.arr H2) none false true
        (createNewTable T (.arr H1) none false false st).2).2.tables T = some ⟨H2, []⟩ ∧
     (createNewTable T (.arr H2) none false true
        (createNewTable T (.arr H1) none false false st).2).2.issued =
      (createNewTable T (.arr H1) none false false st).2.issued ++
        [.showTablesLike T, .dropIfExists T, .createTable T H2]) := by
  have hl1 : ¬(H1.length = 0) := by simpa using h1
  have hl2 : ¬(H2.length = 0) := by simpa using h2
  simp [createNewTable, createNewTableGo, createNTcreate, tableExists, query, send, execCmd,
    hT, h0, hl1, hl2, h1, h2]

/-- Witness for C7 at table T with headers a and then b, c. -/
theorem createNewTable_conflict_policy_witness :
    (createNewTable "T" (.arr ["a"]) none false false stEmpty).1 = .ok "T" ∧
    (createNewTable "T" (.arr ["a"]) none false false stEmpty).2.tables "T" = some ⟨["a"], []⟩ ∧
    ((createNewTable "T" (.arr ["b", "c"]) none false false
        (createNewTable "T" (.arr ["a"]) none false false stEmpty).2).1 =
      .error (.wrap "createNewTable" (.conflict "T")) ∧
     (createNewTable "T" (.arr ["b", "c"]) none false false
        (createNewTable "T" (.arr ["a"]) none false false stEmpty).2).2.tables =
      (createNewTable "T" (.arr ["a"]) none false false stEmpty).2.tables) ∧
    ((createNewTable "T" (.arr ["b", "c"]) none false true
        (createNewTable "T" (.arr ["a"]) none false false stEmpty).2).1 = .ok "T" ∧
     (createNewTable "T" (.arr ["b", "c"]) none false true
        (createNewTable "T" (.arr ["a"]) none false false stEmpty).2).2.tables "T" =
      some ⟨["b", "c"], []⟩ ∧
     (createNewTable "T" (.arr ["b", "c"]) none false true
        (createNewTable "T" (.arr ["a"]) none false false stEmpty).2).2.issued =
      (createNewTable "T" (.arr ["a"]) none false false stEmpty).2.issued ++
        [.showTablesLike "T", .dropIfExists "T", .createTable "T" ["b", "c"]]) :=
  createNewTable_conflict_policy stEmpty "T" ["a"] ["b", "c"]
    (by decide) (by decide) (by decide) (by decide)

/-- C10.  When the target table of exportFileFromTable exists, the
    pre-deletion of the output file never fails the operation: the unlink
    callback ignores its error, so the export proceeds and succeeds whether
    or not a file exists at the output path.  The first run starts from an
    arbitrary filesystem, the second from one that definitely has no file
    at the output path; both return the exported row count. -/
theorem exportFileFromTable_unlink_ignored (st : St) (p t : String) (d : TableData)
    (hp : p ≠ "") (ht0 : t ≠ "") (ht : st.tables t = some d) (hh : d.headers ≠ []) :
    (exportFileFromTable p t [] st).1 = .ok (d.rows.length + 1) ∧
    (exportFileFromTable p t [] { st with files := fun x => if x = p then none else st.files x }).1 =
      .ok (d.rows.length + 1) := by
  have hl : ¬(d.headers.length = 0) := by simpa using hh
  have hall : d.headers.all (fun h => d.headers.contains h) = true := by
    simp [List.all_eq_true]
  simp [exportFileFromTable, getTableHeaders, tableExists, query, send, execCmd, affectedOf,
    hp, ht0, ht, hl, hall]

/-- Witness for C10 on the state holding table test, with and without a
    file at the export path. -/
theorem exportFileFromTable_unlink_ignored_witness :
    (exportFileFromTable "out.csv" "test" [] stOneTable).1 = .ok 1 ∧
    (exportFileFromTable "out.csv" "test" []
      { stOneTable with files := fun x => if x = "out.csv" then none else stOneTable.files x }).1 =
      .ok 1 :=
  exportFileFromTable_unlink_ignored stOneTable "out.csv" "test" ⟨["a"], []⟩
    (by decide) (by decide) (by decide) (by decide)

/-- The indexed fold of the merge statement appends one AND equality per
    pair once the index is past zero. -/
lemma joinFold_enumFrom (ms : List (String × String)) (k : Nat) (hk : k ≠ 0) (acc : String) :
    (List.enumFrom k ms).foldl
      (fun join m => join ++ (if m.1 = 0 then " WHERE" else " AND") ++ " " ++ m.2.1 ++ " = " ++ m.2.2)
      acc = acc ++ andClause ms := by
  induction ms generalizing k acc with
  | nil => simp [andClause]
  | cons m rest ih =>
    simp only [List.enumFrom, List.foldl, andClause]
    rw [ih (k + 1) (by omega)]
    have hA : ∀ x : String, " AND" ++ (" " ++ x) = " AND " ++ x := by
      intro x
      rw [← String.append_assoc]
      rfl
    simp [hk, String.append_assoc, hA]

/-- C8 counterexample.  The WHERE clause of the join statement is built
    from the pairs of the separate merge mapping argument, not from the
    files' join columns: with join columns a and b but a merge mapping
    equating t1.x with t2.y, the statement the code builds equates t1.x
    and t2.y and differs from the statement the spec describes, which
    would equate the prefixed join columns t2_b and t1_a. -/
theorem mergeFiles_join_clause_counterexample :
    mergeJoinStatement "q" ["t1", "t2"] [("t1.x", "t2.y")] =
      "CREATE TABLE merge_q SELECT * FROM t1, t2 WHERE t1.x = t2.y" ∧
    mergeJoinStatement "q" ["t1", "t2"] [("t1.x", "t2.y")] ≠
      mergeJoinStatementSpec "q" [⟨"a.csv", "t1", [], ",", "a"⟩, ⟨"b.csv", "t2", [], ",", "b"⟩] ∧
    mergeJoinStatementSpec "q" [⟨"a.csv", "t1", [], ",", "a"⟩, ⟨"b.csv", "t2", [], ",", "b"⟩] =
      "CREATE TABLE merge_q SELECT * FROM t1, t2 WHERE t2_b = t1_a" := by decide

/-- C8 amended.  The join phase builds one CREATE TABLE SELECT statement
    over all per-file tables whose temporary name is merge_ followed by the
    randomized suffix, and whose WHERE clause chains the equality pairs of
    the merge mapping argument (the first pair after WHERE, each further
    pair after AND), in mapping order. -/
theorem mergeJoinStatement_characterization (suffix : String) (ts : List String)
    (ms : List (String × String)) :
    mergeJoinStatement suffix ts ms =
      "CREATE TABLE merge_" ++ suffix ++ " SELECT * FROM " ++ String.intercalate ", " ts ++
        whereClause ms := by
  cases ms with
  | nil => simp [mergeJoinStatement, whereClause, List.enum]
  | cons m rest =>
    simp only [mergeJoinStatement, whereClause, List.enum, List.enumFrom, List.foldl]
    rw [joinFold_enumFrom rest 1 (by omega)]
    have hW : ∀ x : String, " WHERE" ++ (" " ++ x) = " WHERE " ++ x := by
      intro x
      rw [← String.append_assoc]
      rfl
    simp [String.append_assoc, hW]

/-- Two well-formed merge input files: each has an email join column and
    one further column. -/
def mergeInputFiles : List FileDesc :=
  [⟨"a.csv", "t1", [], ",", "email"⟩, ⟨"b.csv", "t2", [], ",", "email"⟩]

/-- Merge mapping equating the prefixed email columns of the two tables. -/
def mergeInputPairs : List (String × String) := [("t1.t1_email", "t2.t2_email")]

/-- Backend state holding the two input files and no tables. -/
def stMerge : St :=
  { stEmpty with
    files := fun x =>
      if x = "a.csv" then some ⟨"email,name", [["e1", "n1"]]⟩
      else if x = "b.csv" then some ⟨"email,age", [["e1", "a1"]]⟩
      else none }

/-- The same state with a leftover table occupying the merge table name. -/
def stMergeBusy : St :=
  { stMerge with tables := fun x => if x = "merge_s" then some ⟨["x"], []⟩ else none }

/-- A merge input whose second file is absent from disk, so its import
    fails after the first file's table has already been created. -/
def mergeInputFilesBad : List FileDesc :=
  [⟨"a.csv", "t1", [], ",", "email"⟩, ⟨"c.csv", "t2", [], ",", "email"⟩]

/-- C9 counterexample.  When the join phase fails (here because a table
    already occupies the randomized merge table name), mergeFiles returns
    the error WITHOUT dropping the per-file tables created by the import
    phase: the run failed after tables were created, yet the intermediate
    tables t1 and t2 remain, contradicting the claim that cleanup happens
    regardless. -/
theorem mergeFiles_cleanup_counterexample :
    ((mergeFiles mergeInputFiles mergeInputPairs "out.csv" "s" stMergeBusy).1 =
      .error (.backendCmd (.createTableSelect "merge_s" ["t1", "t2"] mergeInputPairs))) ∧
    ((mergeFiles mergeInputFiles mergeInputPairs "out.csv" "s" stMergeBusy).2.tables "t1" =
      some ⟨["t1_email", "t1_name"], [["e1", "n1"]]⟩) ∧
    ((mergeFiles mergeInputFiles mergeInputPairs "out.csv" "s" stMergeBusy).2.tables "t2" =
      some ⟨["t2_email", "t2_age"], [["e1", "a1"]]⟩) := by decide

/-- C9 amended.  The cleanup phase of mergeFiles runs only when the import,
    join and export phases have all succeeded, because the phases are
    chained sequentially: an import failure returns that error with the
    state exactly as the import phase left it (the tables already created
    for sibling files are not dropped), a join failure likewise returns the
    error with no table dropped, an export failure skips cleanup, and only
    on full success are the merge table and every per-file table dropped,
    with the export row count returned. -/
theorem mergeFiles_cleanup_amended (files : List FileDesc) (merge : List (String × String))
    (output suffix : String) (st : St)
    (hf : ¬(files.length = 0)) (ho : output ≠ "")
    (ha : (scanFiles files).aborted = false) (he : (scanFiles files).firstErr = none) :
    (∀ e, (importAll (scanFiles files).normed st).1 = some e →
      (mergeFiles files merge output suffix st).1 = .error e ∧
      (mergeFiles files merge output suffix st).2 =
        (importAll (scanFiles files).normed st).2) ∧
    ((importAll (scanFiles files).normed st).1 = none →
      (((joinIntoTable suffix (scanFiles files).tables merge
          (importAll (scanFiles files).normed st).2).1).isOk = false →
        ((mergeFiles files merge output suffix st).1).isOk = false ∧
        (mergeFiles files merge output suffix st).2 =
          (joinIntoTable suffix (scanFiles files).tables merge
            (importAll (scanFiles files).normed st).2).2 ∧
        (mergeFiles files merge output suffix st).2.tables =
          (importAll (scanFiles files).normed st).2.tables) ∧
      (∀ r st2, joinIntoTable suffix (scanFiles files).tables merge
          (importAll (scanFiles files).normed st).2 = (.ok r, st2) →
        (((exportFileFromTable output ("merge_" ++ suffix) [] st2).1).isOk = false →
          ((mergeFiles files merge output suffix st).1).isOk = false ∧
          (mergeFiles files merge output suffix st).2 =
            (exportFileFromTable output ("merge_" ++ suffix) [] st2).2) ∧
        (∀ n st3, exportFileFromTable output ("merge_" ++ suffix) [] st2 = (.ok n, st3) →
          (mergeFiles files merge output suffix st).1 = .ok n ∧
          ∀ x, x ∈ ("merge_" ++ suffix) :: (scanFiles files).tables →
            (mergeFiles files merge output suffix st).2.tables x = none))) := by
  constructor
  · intro e hie
    rcases hA : importAll (scanFiles files).normed st with ⟨o, st1⟩
    rw [hA] at hie
    simp only at hie
    subst hie
    dsimp only
    constructor
    · simp [mergeFiles, hf, ho, ha, he, hA]
    · simp [mergeFiles, hf, ho, ha, he, hA]
  · intro hi
    rcases hA : importAll (scanFiles files).normed st with ⟨o, st1⟩
    rw [hA] at hi
    simp only at hi
    subst hi
    dsimp only
    constructor
    · intro hJ
      rcases hJ' : joinIntoTable suffix (scanFiles files).tables merge st1 with ⟨jr, st2⟩
      rw [hJ'] at hJ
      simp only at hJ
      cases jr with
      | ok r => simp [Except.isOk, Except.toBool] at hJ
      | error e =>
        have htab : st2.tables = st1.tables := by
          have h0 := joinIntoTable_error_tables suffix (scanFiles files).tables merge st1
            (by rw [hJ']; simp [Except.isOk, Except.toBool])
          rw [hJ'] at h0
          exact h0
        refine ⟨?_, ?_, ?_⟩
        · simp [mergeFiles, hf, ho, ha, he, hA, hJ', Except.isOk, Except.toBool]
        · simp [mergeFiles, hf, ho, ha, he, hA, hJ']
        · have hred : (mergeFiles files merge output suffix st).2.tables = st2.tables := by
            simp [mergeFiles, hf, ho, ha, he, hA, hJ']
          rw [hred, htab]
    · intro r st2 hJeq
      constructor
      · intro hE
        rcases hE' : exportFileFromTable output ("merge_" ++ suffix) [] st2 with ⟨er, st3⟩
        rw [hE'] at hE
        simp only at hE
        cases er with
        | ok n => simp [Except.isOk, Except.toBool] at hE
        | error e =>
          constructor
          · simp [mergeFiles, hf, ho, ha, he, hA, hJeq, hE', Except.isOk, Except.toBool]
          · simp [mergeFiles, hf, ho, ha, he, hA, hJeq, hE']
      · intro n st3 hEeq
        have hgo := dropTableGo_fst (("merge_" ++ suffix) :: (scanFiles files).tables) st3 none
        rcases hD : dropTableGo (("merge_" ++ suffix) :: (scanFiles files).tables) st3 none
          with ⟨de, st4⟩
        rw [hD] at hgo
        simp only at hgo
        subst hgo
        constructor
        · simp [mergeFiles, hf, ho, ha, he, hA, hJeq, hEeq, dropTable, hD]
        · intro x hx
          have hmem := dropTableGo_tables_mem (("merge_" ++ suffix) :: (scanFiles files).tables)
            st3 none x hx
          rw [hD] at hmem
          simp only at hmem
          have hred : (mergeFiles files merge output suffix st).2.tables = st4.tables := by
            simp [mergeFiles, hf, ho, ha, he, hA, hJeq, hEeq, dropTable, hD]
          rw [hred, hmem]

/-- Witness for C9 amended: an import-phase failure (second file missing
    from disk) returns the import error with the first file's table still
    standing, while the full success run over the two well-formed input
    files imports, joins on the equated email columns, exports two rows
    (header plus the one joined row) and drops all three tables. -/
theorem mergeFiles_cleanup_amended_witness :
    ((mergeFiles mergeInputFilesBad mergeInputPairs "out.csv" "s" stMerge).1 =
        .error (.notFound "c.csv") ∧
      (mergeFiles mergeInputFilesBad mergeInputPairs "out.csv" "s" stMerge).2.tables "t1" =
        some ⟨["t1_email", "t1_name"], [["e1", "n1"]]⟩) ∧
    (mergeFiles mergeInputFiles mergeInputPairs "out.csv" "s" stMerge).1 = .ok 2 ∧
    (mergeFiles mergeInputFiles mergeInputPairs "out.csv" "s" stMerge).2.tables "merge_s" = none ∧
    (mergeFiles mergeInputFiles mergeInputPairs "out.csv" "s" stMerge).2.tables "t1" = none ∧
    (mergeFiles mergeInputFiles mergeInputPairs "out.csv" "s" stMerge).2.tables "t2" = none := by
  have HB := mergeFiles_cleanup_amended mergeInputFilesBad mergeInputPairs "out.csv" "s" stMerge
    (by decide) (by decide) (by decide) (by decide)
  have hbad := HB.1 (.notFound "c.csv") (by decide)
  refine ⟨⟨hbad.1, ?_⟩, ?_⟩
  · rw [hbad.2]
    decide
  have H := (mergeFiles_cleanup_amended mergeInputFiles mergeInputPairs "out.csv" "s" stMerge
    (by decide) (by decide) (by decide) (by decide)).2 (by decide)
  have hJ : joinIntoTable "s" (scanFiles mergeInputFiles).tables mergeInputPairs
      (importAll (scanFiles mergeInputFiles).normed stMerge).2 =
      (.ok .done, (joinIntoTable "s" (scanFiles mergeInputFiles).tables mergeInputPairs
        (importAll (scanFiles mergeInputFiles).normed stMerge).2).2) := by
    have h1 : (joinIntoTable "s" (scanFiles mergeInputFiles).tables mergeInputPairs
        (importAll (scanFiles mergeInputFiles).normed stMerge).2).1 = .ok .done := by decide
    rw [← h1]
  have hE : exportFileFromTable "out.csv" ("merge_" ++ "s") []
      (joinIntoTable "s" (scanFiles mergeInputFiles).tables mergeInputPairs
        (importAll (scanFiles mergeInputFiles).normed stMerge).2).2 =
      (.ok 2, (exportFileFromTable "out.csv" ("merge_" ++ "s") []
        (joinIntoTable "s" (scanFiles mergeInputFiles).tables mergeInputPairs
          (importAll (scanFiles mergeInputFiles).normed stMerge).2).2).2) := by
    have h1 : (exportFileFromTable "out.csv" ("merge_" ++ "s") []
        (joinIntoTable "s" (scanFiles mergeInputFiles).tables mergeInputPairs
          (importAll (scanFiles mergeInputFiles).normed stMerge).2).2).1 = .ok 2 := by decide
    rw [← h1]
  have H2 := (H.2 .done _ hJ).2 2 _ hE
  refine ⟨H2.1, ?_, ?_, ?_⟩
  · exact H2.2 "merge_s" (by decide)
  · exact H2.2 "t1" (by decide)
  · exact H2.2 "t2" (by decide)
